import Mathlib

/-!
Verification of the sustainability-GRI dashboard's analytic kernel.

The Python sources are shallowly embedded over exact rationals:
* a numeric spreadsheet cell is `Option ℚ` — `some q` when
  `pandas.to_numeric(errors="coerce")` parses the entry as the number `q`,
  `none` when the entry is non-numeric (coerced to NaN);
* raised Python exceptions become `Except String`;
* Python `round` (ties to even) is `roundHalfEven`.
-/

namespace GriAgent

/-- Lowercase a string character-wise (models Python `str.lower()` and the
`case=False` option of pandas matching, on the ASCII keywords the code uses). -/
def lowerStr (s : String) : String := String.mk (s.data.map Char.toLower)

/-- `startsW hay needle`: `needle` occurs at the head of `hay`. -/
def startsW : List Char → List Char → Bool
  | _, [] => true
  | [], _ :: _ => false
  | a :: hs, b :: ns => a == b && startsW hs ns

/-- `containsSub hay needle`: `needle` occurs contiguously inside `hay`
(models Python `needle in hay` and pandas `Series.str.contains` applied to a
literal keyword). -/
def containsSub (hay needle : List Char) : Bool :=
  match hay with
  | [] => needle.isEmpty
  | _ :: t => startsW hay needle || containsSub t needle

/-- Python whitespace test for `str.strip()`. -/
def isWs (c : Char) : Bool := c.isWhitespace

/-- Python `str.strip()`: drop whitespace from both ends. -/
def stripStr (s : String) : String :=
  String.mk (((s.data.dropWhile isWs).reverse.dropWhile isWs).reverse)

/-- Round a rational to the nearest integer, ties to even
(Python 3 `round`). -/
def roundHalfEven (q : ℚ) : ℤ :=
  if q - ⌊q⌋ < 1/2 then ⌊q⌋
  else if 1/2 < q - ⌊q⌋ then ⌊q⌋ + 1
  else if ⌊q⌋ % 2 = 0 then ⌊q⌋ else ⌊q⌋ + 1

/-- Python `round(x, 2)`: round to two decimal places, ties to even. -/
def round2 (q : ℚ) : ℚ := (roundHalfEven (q * 100) : ℚ) / 100

/-- Digit run of a Python `int` literal (no sign). -/
def parseDigits (cs : List Char) : Option ℤ :=
  if cs = [] then none
  else if cs.all Char.isDigit then
    some (cs.foldl (fun a c => a * 10 + ((c.toNat : ℤ) - 48)) 0)
  else none

/-- Python `int(s)` on an already-stripped string: optional sign followed by
decimal digits; any other shape raises (modelled as `none`). -/
def pyInt (s : String) : Option ℤ :=
  match s.data with
  | '-' :: rest => (parseDigits rest).map Neg.neg
  | '+' :: rest => parseDigits rest
  | cs => parseDigits cs

/-- Python `needle in hay` on strings. -/
def strIn (needle hay : String) : Bool := containsSub hay.data needle.data

/-! ## `src/data_loader.py` -/

/-- `MONTH_MAP` from `data_loader.py`, as an association list in source order. -/
def MONTH_MAP : List (String × ℤ) :=
  [("jan", 1), ("january", 1), ("01", 1), ("1", 1),
   ("feb", 2), ("february", 2), ("02", 2), ("2", 2),
   ("mar", 3), ("march", 3), ("03", 3), ("3", 3),
   ("apr", 4), ("april", 4), ("04", 4), ("4", 4),
   ("may", 5), ("05", 5), ("5", 5),
   ("jun", 6), ("june", 6), ("06", 6), ("6", 6),
   ("jul", 7), ("july", 7), ("07", 7), ("7", 7),
   ("aug", 8), ("august", 8), ("08", 8), ("8", 8),
   ("sep", 9), ("september", 9), ("09", 9), ("9", 9),
   ("oct", 10), ("october", 10),
   ("nov", 11), ("november", 11),
   ("dec", 12), ("december", 12),
   ("يناير", 1), ("فبراير", 2), ("مارس", 3), ("ابريل", 4),
   ("مايو", 5), ("يونيو", 6), ("يوليو", 7), ("اغسطس", 8),
   ("سبتمبر", 9), ("اكتوبر", 10), ("نوفمبر", 11), ("ديسمبر", 12)]

/-- `normalize_month` from `data_loader.py`: strip + lowercase, look up
`MONTH_MAP`, otherwise accept an integer string in `1..12`; anything else
raises `ValueError` (modelled as `Except.error`). The Python `str(value)`
conversion means the input is modelled as the cell's string form. -/
def normalize_month (value : String) : Except String ℤ :=
  match MONTH_MAP.find? (fun p => p.1 == lowerStr (stripStr value)) with
  | some p => .ok p.2
  | none =>
    match pyInt (lowerStr (stripStr value)) with
    | some num =>
      if 1 ≤ num ∧ num ≤ 12 then .ok num
      else .error ("Unrecognized month format: " ++ value)
    | none => .error ("Unrecognized month format: " ++ value)

/-- An input spreadsheet row as `load_year_dataframe` receives it after
`read_all_sheets`. Numeric cells are represented by their
`pandas.to_numeric(errors="coerce")` reading (`none` = non-numeric / NaN);
the `Month` cell by its `str(value)` form; `unit` is `none` for a NaN cell. -/
structure InRow where
  year : Option ℤ
  month : String
  indicator : String
  unit : Option String
  value : Option ℚ
deriving DecidableEq

/-- A processed row of the year dataframe returned by `load_year_dataframe`:
`Month` normalized to an integer, `Value` coerced with `fillna(0)`. -/
structure Row where
  year : ℤ
  month : ℤ
  indicator : String
  unit : Option String
  value : ℚ
deriving DecidableEq

/-- `fillna(0)` applied to a `to_numeric` result: a non-numeric cell enters
the dataframe as `0`. -/
def fillna0 (v : Option ℚ) : ℚ := v.getD 0

/-- Stable insertion by `Month` (the sort key of
`df_year.sort_values(["Month"])`). -/
def insertByMonth (r : Row) : List Row → List Row
  | [] => [r]
  | x :: xs => if x.month ≤ r.month then x :: insertByMonth r xs else r :: x :: xs

/-- Sort a row list by `Month`, modelling `sort_values(["Month"])`. -/
def sortByMonth (rs : List Row) : List Row := rs.foldr insertByMonth []

/-- Apply `normalize_month` down the `Month` column, stopping at the first
unrecognized month (`df["Month"].apply(normalize_month)` raising). -/
def normalizeMonths : List InRow → Except String (List (InRow × ℤ))
  | [] => .ok []
  | r :: rs =>
    match normalize_month r.month, normalizeMonths rs with
    | .error e, _ => .error e
    | .ok _, .error e => .error e
    | .ok m, .ok rest => .ok ((r, m) :: rest)

/-- `load_year_dataframe` from `data_loader.py` for a given year, applied to
the merged sheet rows: coerce `Year`, normalize `Month` (first bad month
raises), coerce `Value` with `fillna(0)`, keep the rows whose `Year` equals
the requested year, and sort by `Month`. File discovery and the
missing-column check are outside the row model. -/
def load_year_dataframe (year : ℤ) (table : List InRow) : Except String (List Row) :=
  match normalizeMonths table with
  | .error e => .error e
  | .ok mid =>
    let filtered := mid.filter (fun rm => rm.1.year == some year)
    .ok (sortByMonth (filtered.map (fun rm =>
      { year := year, month := rm.2, indicator := rm.1.indicator,
        unit := rm.1.unit, value := fillna0 rm.1.value : Row })))

/-- Row filter of `get_kpi_block`: the `Indicator` cell contains the keyword,
case-insensitively (`str.contains(keyword, case=False, na=False)` with a
literal keyword). -/
def indicatorHasKeyword (keyword : String) (r : Row) : Bool :=
  containsSub (lowerStr r.indicator).data (lowerStr keyword).data

/-- Result record of `get_kpi_block`. -/
structure KpiBlock where
  total : ℚ
  monthly : List ℚ
  unit : String
  raw : List Row
deriving DecidableEq

/-- Python `str(x)` on a possibly-NaN `Unit` cell. -/
def pyStrOpt (o : Option String) : String := o.getD "nan"

/-- `get_kpi_block` from `data_loader.py`: load the year dataframe, keep the
rows whose `Indicator` contains the keyword, and package total (rounded to 2
decimals), month-sorted values and unit. -/
def get_kpi_block (year : ℤ) (keyword : String) (table : List InRow) :
    Except String KpiBlock :=
  match load_year_dataframe year table with
  | .error e => .error e
  | .ok df_year =>
    let block := df_year.filter (indicatorHasKeyword keyword)
    if block.isEmpty then
      .ok { total := 0, monthly := [], unit := "", raw := block }
    else
      let total := round2 ((block.map Row.value).sum)
      let monthly := (sortByMonth block).map Row.value
      let unit :=
        if block.all (fun r => r.unit.isNone) then ""
        else
          match block.head? with
          | some r => pyStrOpt r.unit
          | none => ""
      .ok { total := total, monthly := monthly, unit := unit, raw := block }

/-! ## `src/kpi_service.py` -/

/-- A row of the yearly-totals dataframe built by `compute_yearly_totals`
(`change_abs` / `change_pct` are `none` on the first row, where pandas
produces NaN). -/
structure YRow where
  year : ℤ
  total_value : ℚ
  change_abs : Option ℚ
  change_pct : Option ℚ
deriving DecidableEq

/-- Insert a year into a sorted duplicate-free list (the key set of
`groupby("Year")`, which pandas returns sorted). -/
def insertYear (y : ℤ) : List ℤ → List ℤ
  | [] => [y]
  | x :: xs =>
    if y < x then y :: x :: xs
    else if y = x then x :: xs
    else x :: insertYear y xs

/-- Sorted distinct group keys of `groupby("Year")`. -/
def groupYears (ys : List ℤ) : List ℤ := ys.foldr insertYear []

/-- Sum of `Value` over the rows of a given year
(`groupby("Year")["Value"].sum()` at one key). -/
def yearTotal (df : List (ℤ × ℚ)) (y : ℤ) : ℚ :=
  ((df.filter (fun p => p.1 == y)).map Prod.snd).sum

/-- Attach `diff()` and `pct_change() * 100` columns row by row. Division by a
zero previous total is left as the rational `0` where pandas would produce an
infinite float; no claim depends on that cell. -/
def addChanges (prev : Option ℚ) : List (ℤ × ℚ) → List YRow
  | [] => []
  | (y, t) :: rest =>
    { year := y, total_value := t,
      change_abs := prev.map (fun p => t - p),
      change_pct := prev.map (fun p => (t / p - 1) * 100) } :: addChanges (some t) rest

/-- `compute_yearly_totals` from `kpi_service.py`: group the (Year, Value)
pairs by year, sum `Value` per year, and add year-over-year change columns. -/
def compute_yearly_totals (df : List (ℤ × ℚ)) : List YRow :=
  addChanges none ((groupYears (df.map Prod.fst)).map (fun y => (y, yearTotal df y)))

/-- `yearly_df["Year"].max()` over a non-empty yearly dataframe (the `[]`
case is unreachable: every caller guards non-emptiness, pandas raises there). -/
def maxYear : List YRow → ℤ
  | [] => 0
  | r :: rs => (rs.map YRow.year).foldl max r.year

/-- Simple least-squares line fitted by `sklearn.LinearRegression` on the
points, evaluated at `t`: slope `Σ(x-x̄)(y-ȳ) / Σ(x-x̄)²`, intercept
`ȳ - slope·x̄` (sklearn centers the data and solves the least-squares
problem; this closed form is its exact-arithmetic content for a
non-degenerate design; a degenerate all-equal-x design, impossible for a
yearly table, is outside the model). -/
def linregPredict (pts : List (ℚ × ℚ)) (t : ℚ) : ℚ :=
  let n : ℚ := pts.length
  let xbar := (pts.map Prod.fst).sum / n
  let ybar := (pts.map Prod.snd).sum / n
  let sxx := (pts.map (fun p => (p.1 - xbar) * (p.1 - xbar))).sum
  let sxy := (pts.map (fun p => (p.1 - xbar) * (p.2 - ybar))).sum
  let slope := sxy / sxx
  slope * t + (ybar - slope * xbar)

/-- Modelled from the spec: "the degree-1 `numpy.polyfit` line over the same
(Year, total_value) points". `numpy.polyfit(X, Y, 1)` returns the
least-squares solution of the degree-1 Vandermonde system; for a
non-degenerate design these are the normal-equation coefficients, written
here in Cramer closed form, and the line is evaluated at `t`. -/
def polyfitLine (pts : List (ℚ × ℚ)) (t : ℚ) : ℚ :=
  let n : ℚ := pts.length
  let sx := (pts.map Prod.fst).sum
  let sy := (pts.map Prod.snd).sum
  let sxx := (pts.map (fun p => p.1 * p.1)).sum
  let sxy := (pts.map (fun p => p.1 * p.2)).sum
  let d := n * sxx - sx * sx
  let a := (n * sxy - sx * sy) / d
  let b := (sxx * sy - sx * sxy) / d
  a * t + b

/-- `forecast_next_year` from `kpi_service.py`: with fewer than 2 rows return
`(max year + 1, last total)` (raising on the empty table, where pandas `max`
yields NaN); otherwise fit `LinearRegression` on (Year, total_value) and
predict at `max year + 1`. -/
def forecast_next_year (yearly : List YRow) : Except String (ℤ × ℚ) :=
  match yearly with
  | [] => .error "cannot convert NaN to integer"
  | r :: rest =>
    if (r :: rest).length < 2 then
      .ok (maxYear (r :: rest) + 1, (rest.getLastD r).total_value)
    else
      let pts := (r :: rest).map (fun s => ((s.year : ℚ), s.total_value))
      let ny := maxYear (r :: rest) + 1
      .ok (ny, linregPredict pts (ny : ℚ))

/-! ## `src/indicator_status.py` -/

/-- `indicator_status` from `indicator_status.py`: the input series after
`pd.to_numeric(errors="coerce")` is a list of `Option ℚ` (`none` = NaN).
`reported` counts the numeric entries; with none it is "Not Reported",
with all (and at least one) "Reported" at 100, otherwise "Partial" at
`round(reported / total * 100)`. -/
def indicator_status (values : List (Option ℚ)) : String × ℤ :=
  if (values.filterMap id).length = 0 then ("Not Reported", 0)
  else if (values.filterMap id).length < values.length then
    ("Partial",
     roundHalfEven (((values.filterMap id).length : ℚ) / (values.length : ℚ) * 100))
  else ("Reported", 100)

/-! ## `pages/05_All_In_One_GRI_Platform.py` and `utils/data_validation.py` -/

/-- A Python value as `float(value)` sees it: `num q` when the conversion
succeeds with the rational reading `q`, `nonnum` when it raises
`ValueError`/`TypeError`. -/
inductive PyVal where
  | num (q : ℚ)
  | nonnum
deriving DecidableEq

/-- `normalize_numeric` from `utils/data_validation.py`: `float(value)`,
or `None` when the conversion raises. -/
def normalize_numeric : PyVal → Option ℚ
  | .num q => some q
  | .nonnum => none

/-- `classify_kpi` from `pages/05_All_In_One_GRI_Platform.py`. -/
def classify_kpi : PyVal → String
  | .nonnum => "N/A"
  | .num v => if v ≤ 30 then "Excellent" else if v ≤ 70 then "Moderate" else "Risky"

/-- The hardcoded category weights of `calculate_esg_score`
(`pages/05_All_In_One_GRI_Platform.py`), in dict order. -/
def esgWeights : List (String × ℚ) :=
  [("energy", 0.25), ("water", 0.25), ("emission", 0.35), ("waste", 0.15)]

/-- One iteration of the `calculate_esg_score` loop body: skip a non-numeric
KPI, otherwise accumulate `max(0, 100 - v) * w` into the score and `w` into
the used weight for every weight key occurring in the lowercased KPI name. -/
def esgStep (acc : ℚ × ℚ) (kv : String × PyVal) : ℚ × ℚ :=
  match normalize_numeric kv.2 with
  | none => acc
  | some v =>
    esgWeights.foldl (fun acc2 kw =>
      if strIn kw.1 (lowerStr kv.1) then
        (acc2.1 + max 0 (100 - v) * kw.2, acc2.2 + kw.2)
      else acc2) acc

/-- `calculate_esg_score` from `pages/05_All_In_One_GRI_Platform.py`: run the
accumulation loop over the KPI mapping; with no matched weight return
`(0, "N/A")`, otherwise the score divided by the used weight, rounded to 2
decimals, classified via `classify_kpi(100 - final)`. -/
def calculate_esg_score (kpis : List (String × PyVal)) : ℚ × String :=
  let su := kpis.foldl esgStep (0, 0)
  if su.2 = 0 then (0, "N/A")
  else
    let final := round2 (su.1 / su.2)
    (final, classify_kpi (.num (100 - final)))

/-- The (value, weight) match pairs of the ESG loop: one entry per numeric
KPI and weight key contained in its lowercased name. -/
def esgMatches : List (String × PyVal) → List (ℚ × ℚ)
  | [] => []
  | kv :: rest =>
    (match normalize_numeric kv.2 with
     | none => []
     | some v =>
       (esgWeights.filter (fun kw => strIn kw.1 (lowerStr kv.1))).map
         (fun kw => (v, kw.2))) ++ esgMatches rest

/-! ## `scripts/etl.py` and the PDF exporter's anomaly check -/

/-- Mean of the numeric entries of a column (`df[col].mean()`, NaN-skipping;
the all-NaN column, where pandas propagates NaN, is outside every claim and
degenerates to 0 here). -/
def colMean (col : List (Option ℚ)) : ℚ :=
  (col.filterMap id).sum / ((col.filterMap id).length : ℚ)

/-- `df[col].fillna(df[col].mean())`. -/
def scalerFilled (col : List (Option ℚ)) : List ℚ :=
  col.map (fun c => c.getD (colMean col))

/-- Mean used by `StandardScaler` (over the filled column). -/
def scalerMean (xs : List ℚ) : ℚ := xs.sum / (xs.length : ℚ)

/-- Population variance used by `StandardScaler`. -/
def popVar (xs : List ℚ) : ℚ :=
  (xs.map (fun v => (v - scalerMean xs) * (v - scalerMean xs))).sum / (xs.length : ℚ)

noncomputable section

/-- `StandardScaler` scale: the population standard deviation, with zero
variance replaced by 1 (sklearn's `_handle_zeros_in_scale`). -/
noncomputable def scalerScale (xs : List ℚ) : ℝ :=
  if popVar xs = 0 then 1 else Real.sqrt ((popVar xs : ℚ))

/-- The standardized z-scores `scaler.fit_transform(values)` of
`detect_anomalies`. -/
noncomputable def zscores (col : List (Option ℚ)) : List ℝ :=
  (scalerFilled col).map
    (fun v => ((v : ℝ) - ((scalerMean (scalerFilled col) : ℚ) : ℝ))
        / scalerScale (scalerFilled col))

/-- The flag chosen by `detect_anomalies` for one z-score:
`z > 2` High Anomaly, `z < -2` Low Anomaly, `|z| > 1.5` Warning,
otherwise Normal. -/
noncomputable def anomalyFlag (z : ℝ) : String :=
  if 2 < z then "High Anomaly"
  else if z < -2 then "Low Anomaly"
  else if 1.5 < |z| then "Warning"
  else "Normal"

/-- `detect_anomalies` from `scripts/etl.py`, restricted to the columns it
adds: the `z_score` column and the `anomaly_flag` column. -/
noncomputable def detect_anomalies (col : List (Option ℚ)) : List ℝ × List String :=
  (zscores col, (zscores col).map anomalyFlag)

/-- Mean used in the PDF exporter's anomaly check (`values.mean()`,
NaN-skipping). -/
def pdfMean (values : List (Option ℚ)) : ℚ :=
  (values.filterMap id).sum / ((values.filterMap id).length : ℚ)

/-- Sample standard deviation used in the PDF exporter (`values.std()`,
pandas default `ddof=1`, over the numeric entries). -/
noncomputable def pdfStd (values : List (Option ℚ)) : ℝ :=
  Real.sqrt ((((values.filterMap id).map
      (fun v => (v - pdfMean values) * (v - pdfMean values))).sum
    / (((values.filterMap id).length : ℚ) - 1) : ℚ))

/-- The anomaly list of `build_company_pdf`
(`[y for y, v in zip(year_cols, values) if abs(v - mean) > 2 * std]`;
a NaN `v` fails the comparison and is never listed). -/
noncomputable def pdfAnomalies (year_cols : List String) (values : List (Option ℚ)) :
    List String :=
  ((year_cols.zip values).filter (fun p =>
      match p.2 with
      | some v =>
        if 2 * pdfStd values < |(v : ℝ) - ((pdfMean values : ℚ) : ℝ)| then true
        else false
      | none => false)).map Prod.fst

end

/-! ## `src/ai_agent.py`, `src/config.py`, `src/reporting.py`

`ai_agent.py` imports `load_indicator` and `generate_sustainability_answer`
from `data_loader.py` / `llm_engine.py`, but neither is defined anywhere in
the repository. Modelled from the spec: the indicator dataframe delivered by
the missing `load_indicator` is the explicit `df` argument (rows with Year,
Month, Indicator, Unit, Value), and the missing LLM wrapper around "a remote
inference endpoint" is the explicit `llm` argument, an arbitrary function
from the query to an answer or a raised exception. -/

/-- `IndicatorSheet` and the `INDICATORS` table from `config.py`. -/
structure IndicatorSheet where
  key : String
  sheet_name : String
  gri_code : String
  kpi_name : String
deriving DecidableEq

def INDICATORS : List (String × IndicatorSheet) :=
  [("energy", ⟨"energy", "Energy_Consumption", "GRI 302", "Energy Consumption"⟩),
   ("water", ⟨"water", "Water_Usage", "GRI 303", "Water Usage"⟩),
   ("emissions", ⟨"emissions", "Emissions", "GRI 305", "GHG Emissions"⟩),
   ("waste", ⟨"waste", "Waste_Generation", "GRI 306", "Waste Generation"⟩)]

/-- Keyword lists of `SustainabilityAgent._detect_indicator`, in source
order. -/
def energyKws : List String := ["energy", "electricity", "power", "302"]

def waterKws : List String := ["water", "303"]

def emissionKws : List String := ["emission", "co2", "carbon", "ghg", "305"]

def wasteKws : List String := ["waste", "306"]

/-- `SustainabilityAgent._detect_indicator`: lowercase the query and return
the first category, in the order energy, water, emissions, waste, one of
whose keywords occurs in it. -/
def detect_indicator (query : String) : Option String :=
  if energyKws.any (fun x => strIn x (lowerStr query)) then some "energy"
  else if waterKws.any (fun x => strIn x (lowerStr query)) then some "water"
  else if emissionKws.any (fun x => strIn x (lowerStr query)) then some "emissions"
  else if wasteKws.any (fun x => strIn x (lowerStr query)) then some "waste"
  else none

/-- Python `\w` (word character) for the `\b` boundaries of the year regex. -/
def isWordChar (c : Char) : Bool := c.isAlphanum || c == '_'

/-- `re.findall(r"\b(20[0-9]{2})\b", query)`: scan for non-overlapping
`20dd` runs with word boundaries on both sides; `prev` is the character just
before the current position. -/
def scanYears (prev : Option Char) : List Char → List ℤ
  | '2' :: '0' :: a :: b :: rest2 =>
    if a.isDigit && b.isDigit
        && (match prev with | none => true | some p => !(isWordChar p))
        && (match rest2 with | [] => true | d :: _ => !(isWordChar d)) then
      (2000 + 10 * ((a.toNat : ℤ) - 48) + ((b.toNat : ℤ) - 48))
        :: scanYears (some b) rest2
    else scanYears (some '2') ('0' :: a :: b :: rest2)
  | c :: rest => scanYears (some c) rest
  | [] => []

/-- `SustainabilityAgent._detect_years`: the years matched in the query, or
`[int(df["Year"].max())]` (raising on an empty dataframe) when none. -/
def detect_years (query : String) (df : List Row) : Except String (List ℤ) :=
  match scanYears none query.data with
  | [] =>
    match df with
    | [] => .error "cannot convert float NaN to integer"
    | r :: rest => .ok [(rest.map Row.year).foldl max r.year]
  | found => .ok found

/-- Group the decimal digits of a reversed digit run in threes. -/
def group3Rev : List Char → List Char
  | a :: b :: c :: d :: rest => a :: b :: c :: ',' :: group3Rev (d :: rest)
  | l => l

/-- Thousands-grouped decimal digits of a natural number. -/
def natDigitsComma (n : ℕ) : String :=
  String.mk ((group3Rev (toString n).data.reverse).reverse)

/-- Two-digit zero-padded decimal fraction. -/
def twoDigits (k : ℕ) : String := if k < 10 then "0" ++ toString k else toString k

/-- Python `f"{x:,.2f}"` over the rational model: thousands-grouped integer
part and two rounded decimals (ties to even; binary float representation
error is outside the rational model, as is the sign of a negative zero). -/
def fmtComma2 (q : ℚ) : String :=
  (if roundHalfEven (q * 100) < 0 then "-" else "")
    ++ natDigitsComma ((roundHalfEven (q * 100)).natAbs / 100)
    ++ "." ++ twoDigits ((roundHalfEven (q * 100)).natAbs % 100)

/-- Python `f"{x:.2f}"` over the rational model. -/
def fmt2 (q : ℚ) : String :=
  (if roundHalfEven (q * 100) < 0 then "-" else "")
    ++ toString ((roundHalfEven (q * 100)).natAbs / 100)
    ++ "." ++ twoDigits ((roundHalfEven (q * 100)).natAbs % 100)

/-- The `names` dict of `build_indicator_narrative` (`reporting.py`). -/
def narrativeNames : List (String × String) :=
  [("energy", "Energy consumption"),
   ("water", "Water withdrawal and consumption"),
   ("emissions", "GHG emissions performance"),
   ("waste", "Waste generation and disposal")]

/-- `build_indicator_narrative` from `reporting.py`: filter the dataframe to
the year; if empty a stock sentence, otherwise the GRI-style paragraph with
the total, the first month attaining the maximum (`idxmax`) and minimum
(`idxmin`) values. -/
def build_indicator_narrative (indicator_key : String) (df : List Row) (year : ℤ)
    (unit_label : String) : String :=
  match df.filter (fun r => r.year == year) with
  | [] => "No available data for " ++ toString year ++ "."
  | r0 :: rest =>
    "In " ++ toString year ++ ", the organization reported a total "
      ++ lowerStr (((narrativeNames.find? (fun p => p.1 == indicator_key)).map
            Prod.snd).getD "KPI performance")
      ++ " of <b>" ++ fmtComma2 (((r0 :: rest).map Row.value).sum) ++ " " ++ unit_label
      ++ "</b>. Monthly data shows that the highest recorded value occurred in month <b>"
      ++ toString ((((r0 :: rest).find?
            (fun r => r.value == (rest.map Row.value).foldl max r0.value)).getD r0).month)
      ++ "</b> with <b>" ++ fmtComma2 ((rest.map Row.value).foldl max r0.value)
      ++ " " ++ unit_label
      ++ "</b>, while the lowest occurred in month <b>"
      ++ toString ((((r0 :: rest).find?
            (fun r => r.value == (rest.map Row.value).foldl min r0.value)).getD r0).month)
      ++ "</b> with <b>" ++ fmtComma2 ((rest.map Row.value).foldl min r0.value)
      ++ " " ++ unit_label
      ++ "</b>. The data was monitored throughout the year to ensure accuracy, improve "
      ++ "operational control, and support decision-making toward efficiency and "
      ++ "resource optimization."

/-- `compute_yearly_totals(df)` on the (Year, Value) columns of the agent's
indicator dataframe. -/
def agentYearly (df : List Row) : List YRow :=
  compute_yearly_totals (df.map (fun r => (r.year, r.value)))

/-- `years_valid`: the requested years that occur in the yearly table. -/
def agentYearsValid (df : List Row) (yearsReq : List ℤ) : List ℤ :=
  yearsReq.filter (fun y => ((agentYearly df).map YRow.year).contains y)

/-- `kpi_records`: for each valid year, the yearly row
(`yearly[yearly["Year"] == year].iloc[0]`; the default is unreachable since
the year was validated against the table). -/
def agentRecs (df : List Row) (years_valid : List ℤ) : List YRow :=
  years_valid.map (fun y =>
    ((agentYearly df).find? (fun row => row.year == y)).getD ⟨y, 0, none, none⟩)

/-- `narratives`: the per-year narrative dictionary. -/
def agentNarrs (key : String) (df : List Row) (years_valid : List ℤ)
    (unit : String) : List (ℤ × String) :=
  years_valid.map (fun y => (y, build_indicator_narrative key df y unit))

/-- `narratives[year]`. -/
def narrLookup (narrs : List (ℤ × String)) (y : ℤ) : String :=
  ((narrs.find? (fun p => p.1 == y)).map Prod.snd).getD ""

/-- The `try: forecast_next_year ... except: (None, None)` wrapper. -/
def forecastOpt (yearly : List YRow) : Option (ℤ × ℚ) :=
  match forecast_next_year yearly with
  | .ok p => some p
  | .error _ => none

/-- The `fb` list assembled in the `except` branch of
`SustainabilityAgent.answer`: header, unit line, one KPI line plus narrative
plus blank per record, the forecast line when `next_year and prediction` is
truthy, and the LLM error line. -/
def fallbackLines (meta : IndicatorSheet) (unit : String) (recs : List YRow)
    (narrs : List (ℤ × String)) (fc : Option (ℤ × ℚ)) (exc : String) :
    List String :=
  ["Indicator: " ++ meta.kpi_name ++ " (" ++ meta.gri_code ++ ")",
   "Unit: " ++ unit ++ "\n"]
  ++ (recs.flatMap (fun rec =>
       ["Year " ++ toString rec.year ++ ": " ++ fmtComma2 rec.total_value ++ " " ++ unit
          ++ " (change: "
          ++ (match rec.change_abs with
              | none => "n/a"
              | some a => fmtComma2 a ++ " " ++ unit)
          ++ ", "
          ++ (match rec.change_pct with
              | none => "n/a"
              | some p => fmt2 p ++ "%")
          ++ ")",
        narrLookup narrs rec.year, ""]))
  ++ (match fc with
      | some pr =>
        if pr.1 ≠ 0 ∧ pr.2 ≠ 0 then
          ["Forecast for " ++ toString pr.1 ++ ": " ++ fmtComma2 pr.2 ++ " " ++ unit]
        else []
      | none => [])
  ++ ["\n[LLM Error: " ++ exc ++ "]"]

/-- `SustainabilityAgent.answer`: dispatch on `_detect_indicator`; with no
indicator forward the query to the LLM; otherwise validate the requested
years (raising `ValueError` when none is available), call the LLM with the
packaged context, and on an exception return the locally assembled fallback
string instead. The `KeyError` and `IndexError` arms are unreachable
(`_detect_indicator` only returns keys of `INDICATORS`, and a non-empty
valid-year list forces a non-empty dataframe). -/
def agent_answer (llm : String → Except String String) (query : String)
    (df : List Row) : Except String String :=
  match detect_indicator query with
  | none => llm query
  | some key =>
    match INDICATORS.find? (fun p => p.1 == key) with
    | none => .error "KeyError"
    | some meta_p =>
      match detect_years query df with
      | .error e => .error e
      | .ok years_requested =>
        match agentYearsValid df years_requested, df with
        | [], _ => .error "Requested years not found."
        | _ :: _, [] => .error "IndexError"
        | yv0 :: yvrest, r0 :: _ =>
          match llm query with
          | .ok s => .ok s
          | .error exc =>
            .ok (String.intercalate "\n"
              (fallbackLines meta_p.2 (pyStrOpt r0.unit)
                (agentRecs df (yv0 :: yvrest))
                (agentNarrs key df (yv0 :: yvrest) (pyStrOpt r0.unit))
                (forecastOpt (agentYearly df)) exc))

/-! ## Theorems -/

/-- Every row emitted by `addChanges` carries a (year, total) pair of the
input list. -/
lemma mem_insertYear {y a : ℤ} {l : List ℤ} :
    y ∈ insertYear a l ↔ y = a ∨ y ∈ l := by
  induction l with
  | nil => simp [insertYear]
  | cons x xs ih =>
    simp only [insertYear]
    split
    · simp [List.mem_cons]
    · split
      · rename_i hlt heq
        subst heq
        simp [List.mem_cons]
      · simp only [List.mem_cons, ih]
        tauto

lemma mem_groupYears {y : ℤ} {ys : List ℤ} (h : y ∈ ys) : y ∈ groupYears ys := by
  induction ys with
  | nil => cases h
  | cons a l ih =>
    show y ∈ insertYear a (groupYears l)
    rw [mem_insertYear]
    rcases List.mem_cons.1 h with rfl | h'
    · exact Or.inl rfl
    · exact Or.inr (ih h')

lemma addChanges_years (prev : Option ℚ) (ts : List (ℤ × ℚ)) :
    (addChanges prev ts).map YRow.year = ts.map Prod.fst := by
  induction ts generalizing prev with
  | nil => rfl
  | cons p rest ih =>
    obtain ⟨y, t⟩ := p
    simp [addChanges, ih]

lemma mem_addChanges {r : YRow} :
    ∀ (prev : Option ℚ) (ts : List (ℤ × ℚ)), r ∈ addChanges prev ts →
      (r.year, r.total_value) ∈ ts := by
  intro prev ts
  induction ts generalizing prev with
  | nil => intro h; simp [addChanges] at h
  | cons p rest ih =>
    intro h
    obtain ⟨y, t⟩ := p
    simp only [addChanges, List.mem_cons] at h ⊢
    rcases h with h | h
    · subst h; exact Or.inl rfl
    · exact Or.inr (ih _ h)

/-- C1: for every table with Year and Value columns, each row of
`compute_yearly_totals` has `total_value` equal to the sum of `Value` over
that year's input rows, and `get_kpi_block` returns as `total` the sum of
`Value` over the loaded year's rows whose `Indicator` contains the keyword,
rounded to 2 decimal places. -/
theorem C1_displayed_sum_eq_column_sum :
    (∀ (df : List (ℤ × ℚ)) (r : YRow), r ∈ compute_yearly_totals df →
        r.total_value = ((df.filter (fun p => p.1 == r.year)).map Prod.snd).sum)
    ∧ (∀ (df : List (ℤ × ℚ)) (p : ℤ × ℚ), p ∈ df →
        ∃ r ∈ compute_yearly_totals df, r.year = p.1)
    ∧ (∀ (year : ℤ) (keyword : String) (table : List InRow)
          (rows : List Row) (blk : KpiBlock),
        load_year_dataframe year table = .ok rows →
        get_kpi_block year keyword table = .ok blk →
        blk.total
          = round2 (((rows.filter (indicatorHasKeyword keyword)).map Row.value).sum)) := by
  refine ⟨?_, ?_, ?_⟩
  case refine_2 =>
    intro df p hp
    have hy : p.1 ∈ (compute_yearly_totals df).map YRow.year := by
      unfold compute_yearly_totals
      rw [addChanges_years, List.map_map]
      have : p.1 ∈ groupYears (df.map Prod.fst) :=
        mem_groupYears (List.mem_map_of_mem _ hp)
      simpa using this
    rw [List.mem_map] at hy
    obtain ⟨r, hr, hry⟩ := hy
    exact ⟨r, hr, hry⟩
  · intro df r hr
    have h := mem_addChanges _ _ hr
    rw [List.mem_map] at h
    obtain ⟨y, _, hy⟩ := h
    have h1 : y = r.year := congrArg Prod.fst hy
    have h2 : yearTotal df y = r.total_value := congrArg Prod.snd hy
    subst h1
    rw [← h2]
    rfl
  · intro year keyword table rows blk hload hblk
    unfold get_kpi_block at hblk
    rw [hload] at hblk
    simp only at hblk
    split at hblk
    · rename_i he
      injection hblk with h
      subst h
      rw [List.isEmpty_iff] at he
      show (0 : ℚ) = _
      rw [he]
      norm_num [round2, roundHalfEven]
    · injection hblk with h
      subst h
      rfl

/-- Witness for C1 on a concrete three-row 2023 sheet. -/
theorem C1_displayed_sum_eq_column_sum_wit :
    ((⟨2022, 6, none, none⟩ : YRow)
        ∈ compute_yearly_totals [((2023 : ℤ), (4 : ℚ)), (2022, 6), (2023, 3)]
      ∧ (⟨2022, 6, none, none⟩ : YRow).total_value
          = (([((2023 : ℤ), (4 : ℚ)), (2022, 6), (2023, 3)].filter
              (fun p => p.1 == (⟨2022, 6, none, none⟩ : YRow).year)).map Prod.snd).sum)
    ∧ (((2022 : ℤ), (6 : ℚ)) ∈ [((2023 : ℤ), (4 : ℚ)), (2022, 6), (2023, 3)]
      ∧ ∃ r ∈ compute_yearly_totals [((2023 : ℤ), (4 : ℚ)), (2022, 6), (2023, 3)],
          r.year = ((2022 : ℤ), (6 : ℚ)).1)
    ∧ (load_year_dataframe 2023
          [⟨some 2023, "Jan", "Energy Consumption", some "kWh", some 10⟩,
           ⟨some 2023, "feb", "Energy Consumption", some "kWh", none⟩,
           ⟨some 2023, "3", "Water Usage", some "m3", some 7⟩,
           ⟨some 2022, "jan", "Energy Consumption", some "kWh", some 99⟩]
        = .ok [⟨2023, 1, "Energy Consumption", some "kWh", 10⟩,
               ⟨2023, 2, "Energy Consumption", some "kWh", 0⟩,
               ⟨2023, 3, "Water Usage", some "m3", 7⟩]
      ∧ get_kpi_block 2023 "energy"
          [⟨some 2023, "Jan", "Energy Consumption", some "kWh", some 10⟩,
           ⟨some 2023, "feb", "Energy Consumption", some "kWh", none⟩,
           ⟨some 2023, "3", "Water Usage", some "m3", some 7⟩,
           ⟨some 2022, "jan", "Energy Consumption", some "kWh", some 99⟩]
        = .ok ⟨10, [10, 0], "kWh",
               [⟨2023, 1, "Energy Consumption", some "kWh", 10⟩,
                ⟨2023, 2, "Energy Consumption", some "kWh", 0⟩]⟩
      ∧ (⟨(10 : ℚ), [10, 0], "kWh",
           [⟨2023, 1, "Energy Consumption", some "kWh", 10⟩,
            ⟨2023, 2, "Energy Consumption", some "kWh", 0⟩]⟩ : KpiBlock).total
          = round2 ((([⟨2023, 1, "Energy Consumption", some "kWh", (10 : ℚ)⟩,
                       ⟨2023, 2, "Energy Consumption", some "kWh", 0⟩,
                       (⟨2023, 3, "Water Usage", some "m3", 7⟩ : Row)].filter
                      (indicatorHasKeyword "energy")).map Row.value).sum)) := by
  have hcy : compute_yearly_totals [((2023 : ℤ), (4 : ℚ)), (2022, 6), (2023, 3)]
      = [⟨2022, 6, none, none⟩, ⟨2023, 7, some 1, some (50/3)⟩] := by
    norm_num [compute_yearly_totals, groupYears, insertYear, yearTotal, addChanges]
  have hm : (⟨2022, 6, none, none⟩ : YRow)
      ∈ compute_yearly_totals [((2023 : ℤ), (4 : ℚ)), (2022, 6), (2023, 3)] := by
    rw [hcy]; exact List.mem_cons_self _ _
  have hl : load_year_dataframe 2023
      [⟨some 2023, "Jan", "Energy Consumption", some "kWh", some 10⟩,
       ⟨some 2023, "feb", "Energy Consumption", some "kWh", none⟩,
       ⟨some 2023, "3", "Water Usage", some "m3", some 7⟩,
       ⟨some 2022, "jan", "Energy Consumption", some "kWh", some 99⟩]
      = .ok [⟨2023, 1, "Energy Consumption", some "kWh", 10⟩,
             ⟨2023, 2, "Energy Consumption", some "kWh", 0⟩,
             ⟨2023, 3, "Water Usage", some "m3", 7⟩] := by rfl
  have hg : get_kpi_block 2023 "energy"
      [⟨some 2023, "Jan", "Energy Consumption", some "kWh", some 10⟩,
       ⟨some 2023, "feb", "Energy Consumption", some "kWh", none⟩,
       ⟨some 2023, "3", "Water Usage", some "m3", some 7⟩,
       ⟨some 2022, "jan", "Energy Consumption", some "kWh", some 99⟩]
      = .ok ⟨10, [10, 0], "kWh",
             [⟨2023, 1, "Energy Consumption", some "kWh", 10⟩,
              ⟨2023, 2, "Energy Consumption", some "kWh", 0⟩]⟩ := by
    unfold get_kpi_block
    rw [hl]
    have hf : List.filter (indicatorHasKeyword "energy")
        [(⟨2023, 1, "Energy Consumption", some "kWh", 10⟩ : Row),
         ⟨2023, 2, "Energy Consumption", some "kWh", 0⟩,
         ⟨2023, 3, "Water Usage", some "m3", 7⟩]
        = [⟨2023, 1, "Energy Consumption", some "kWh", 10⟩,
           ⟨2023, 2, "Energy Consumption", some "kWh", 0⟩] := rfl
    simp only [hf]
    norm_num [round2, roundHalfEven, sortByMonth, insertByMonth, pyStrOpt]
  have hp : ((2022 : ℤ), (6 : ℚ)) ∈ [((2023 : ℤ), (4 : ℚ)), (2022, 6), (2023, 3)] := by
    norm_num
  exact ⟨⟨hm, C1_displayed_sum_eq_column_sum.1 _ _ hm⟩,
         ⟨hp, C1_displayed_sum_eq_column_sum.2.1 _ _ hp⟩,
         hl, hg, C1_displayed_sum_eq_column_sum.2.2 _ _ _ _ _ hl hg⟩

/-- Expansion of a centered sum of squares over the first coordinates. -/
lemma sum_centered_sq (pts : List (ℚ × ℚ)) (a : ℚ) :
    (pts.map (fun p => (p.1 - a) * (p.1 - a))).sum
      = (pts.map (fun p => p.1 * p.1)).sum - 2 * a * (pts.map Prod.fst).sum
        + (pts.length : ℚ) * (a * a) := by
  induction pts with
  | nil => simp
  | cons p t ih =>
    simp only [List.map_cons, List.sum_cons, ih, List.length_cons]
    push_cast
    ring

/-- Expansion of a centered cross sum. -/
lemma sum_centered_mul (pts : List (ℚ × ℚ)) (a b : ℚ) :
    (pts.map (fun p => (p.1 - a) * (p.2 - b))).sum
      = (pts.map (fun p => p.1 * p.2)).sum - b * (pts.map Prod.fst).sum
        - a * (pts.map Prod.snd).sum + (pts.length : ℚ) * (a * b) := by
  induction pts with
  | nil => simp
  | cons p t ih =>
    simp only [List.map_cons, List.sum_cons, ih, List.length_cons]
    push_cast
    ring

/-- `n·Σx² - (Σx)²`, the (scaled) design determinant of a degree-1 fit. -/
def Dq (xs : List ℚ) : ℚ :=
  (xs.length : ℚ) * (xs.map (fun x => x * x)).sum - xs.sum * xs.sum

lemma Dq_cons (x : ℚ) (xs : List ℚ) :
    Dq (x :: xs) = Dq xs + (xs.map (fun y => (x - y) * (x - y))).sum := by
  have h : (xs.map (fun y => (x - y) * (x - y))).sum
      = (xs.map (fun y => y * y)).sum - 2 * x * xs.sum + (xs.length : ℚ) * (x * x) := by
    induction xs with
    | nil => simp
    | cons z t ih =>
      simp only [List.map_cons, List.sum_cons, ih, List.length_cons]
      push_cast
      ring
  simp only [Dq, h, List.length_cons, List.map_cons, List.sum_cons]
  push_cast
  ring

lemma Dq_nonneg (xs : List ℚ) : 0 ≤ Dq xs := by
  induction xs with
  | nil => simp [Dq]
  | cons x t ih =>
    rw [Dq_cons]
    have hs : 0 ≤ (t.map (fun y => (x - y) * (x - y))).sum :=
      List.sum_nonneg (by
        intro z hz
        rw [List.mem_map] at hz
        obtain ⟨y, _, rfl⟩ := hz
        exact mul_self_nonneg _)
    linarith

/-- Two distinct entries force a positive design determinant. -/
lemma Dq_pos {xs : List ℚ} {a b : ℚ} (ha : a ∈ xs) (hb : b ∈ xs) (hab : a ≠ b) :
    0 < Dq xs := by
  induction xs with
  | nil => cases ha
  | cons x t ih =>
    rw [Dq_cons]
    have hnn : ∀ z ∈ t.map (fun y => (x - y) * (x - y)), 0 ≤ z := by
      intro z hz
      rw [List.mem_map] at hz
      obtain ⟨y, _, rfl⟩ := hz
      exact mul_self_nonneg _
    rcases List.mem_cons.1 ha with rfl | ha' <;> rcases List.mem_cons.1 hb with rfl | hb'
    · exact absurd rfl hab
    · have hpos : 0 < (a - b) * (a - b) :=
        mul_self_pos.2 (sub_ne_zero.2 hab)
      have hle : (a - b) * (a - b) ≤ (t.map (fun y => (a - y) * (a - y))).sum :=
        List.single_le_sum hnn _ (List.mem_map_of_mem _ hb')
      have := Dq_nonneg t
      linarith
    · have hpos : 0 < (b - a) * (b - a) :=
        mul_self_pos.2 (sub_ne_zero.2 (Ne.symm hab))
      have hle : (b - a) * (b - a) ≤ (t.map (fun y => (b - y) * (b - y))).sum :=
        List.single_le_sum hnn _ (List.mem_map_of_mem _ ha')
      have := Dq_nonneg t
      linarith
    · have := List.sum_nonneg hnn
      have := ih ha' hb'
      linarith

/-- The centered (sklearn) simple-regression line equals the Vandermonde
normal-equation (`numpy.polyfit`) line, for a non-degenerate design. -/
lemma linreg_eq_polyfit (pts : List (ℚ × ℚ)) (t : ℚ)
    (hn : (pts.length : ℚ) ≠ 0)
    (hd : (pts.length : ℚ) * (pts.map (fun p => p.1 * p.1)).sum
          - (pts.map Prod.fst).sum * (pts.map Prod.fst).sum ≠ 0) :
    linregPredict pts t = polyfitLine pts t := by
  unfold linregPredict polyfitLine
  simp only [sum_centered_sq, sum_centered_mul]
  set n := (pts.length : ℚ) with hn_def
  set sx := (pts.map Prod.fst).sum
  set sy := (pts.map Prod.snd).sum
  set sxx := (pts.map (fun p => p.1 * p.1)).sum
  set sxy := (pts.map (fun p => p.1 * p.2)).sum
  have hcx : sxx - 2 * (sx / n) * sx + n * (sx / n * (sx / n))
      = (n * sxx - sx * sx) / n := by
    field_simp
    ring
  have hcy : sxy - sy / n * sx - sx / n * sy + n * (sx / n * (sy / n))
      = (n * sxy - sx * sy) / n := by
    field_simp
    ring
  rw [hcx, hcy]
  have hB : (n * sxx - sx * sx) / n ≠ 0 := div_ne_zero hd hn
  field_simp
  ring

/-- C10: with exactly one yearly row, `forecast_next_year` does not fit a
regression: it returns that row's year plus one, carrying the observed total
forward unchanged. -/
theorem C10_single_row_carries_total_forward (r : YRow) :
    forecast_next_year [r] = .ok (r.year + 1, r.total_value) := by
  rfl

/-- C2: on a yearly table with at least 2 rows (distinct years, as
`compute_yearly_totals` produces), the sklearn prediction of
`forecast_next_year` equals the degree-1 `numpy.polyfit` line over the same
(Year, total_value) points evaluated at max year + 1, and the returned year
is max year + 1. -/
theorem C2_forecast_matches_polyfit (yearly : List YRow)
    (h2 : 2 ≤ yearly.length) (hnd : (yearly.map YRow.year).Nodup) :
    forecast_next_year yearly
      = .ok (maxYear yearly + 1,
          polyfitLine (yearly.map (fun s => ((s.year : ℚ), s.total_value)))
            ((maxYear yearly + 1 : ℤ) : ℚ)) := by
  match yearly, h2 with
  | r :: s :: rest, _ =>
    simp only [forecast_next_year]
    rw [if_neg (by simp)]
    set pts := ((r :: s :: rest).map (fun u => ((u.year : ℚ), u.total_value))) with hpts
    have hn : ((pts.length : ℚ)) ≠ 0 := by
      rw [hpts]
      simp only [List.length_map, List.length_cons]
      push_cast
      positivity
    have hxy : (r.year : ℚ) ≠ (s.year : ℚ) := by
      have : r.year ≠ s.year := by
        simp only [List.map_cons, List.nodup_cons, List.mem_cons] at hnd
        exact fun h => hnd.1 (Or.inl h)
      exact_mod_cast this
    have hmem1 : (r.year : ℚ) ∈ pts.map Prod.fst := by
      rw [hpts]; simp
    have hmem2 : (s.year : ℚ) ∈ pts.map Prod.fst := by
      rw [hpts]; simp
    have hDq : 0 < Dq (pts.map Prod.fst) := Dq_pos hmem1 hmem2 hxy
    have hd : (pts.length : ℚ) * (pts.map (fun p => p.1 * p.1)).sum
        - (pts.map Prod.fst).sum * (pts.map Prod.fst).sum ≠ 0 := by
      have hrw : Dq (pts.map Prod.fst)
          = (pts.length : ℚ) * (pts.map (fun p => p.1 * p.1)).sum
            - (pts.map Prod.fst).sum * (pts.map Prod.fst).sum := by
        unfold Dq
        rw [List.length_map, List.map_map]
        rfl
      rw [hrw] at hDq
      exact ne_of_gt hDq
    rw [linreg_eq_polyfit pts _ hn hd]

/-- Witness for C2: a concrete three-year table. -/
theorem C2_forecast_matches_polyfit_wit :
    2 ≤ ([⟨2022, 4, none, none⟩, ⟨2023, 6, none, none⟩,
          ⟨2024, 8, none, none⟩] : List YRow).length
    ∧ (([⟨2022, 4, none, none⟩, ⟨2023, 6, none, none⟩,
          ⟨2024, 8, none, none⟩] : List YRow).map YRow.year).Nodup
    ∧ forecast_next_year
        [⟨2022, 4, none, none⟩, ⟨2023, 6, none, none⟩, ⟨2024, 8, none, none⟩]
      = .ok (maxYear [⟨2022, 4, none, none⟩, ⟨2023, 6, none, none⟩,
                      ⟨2024, 8, none, none⟩] + 1,
          polyfitLine (([⟨2022, 4, none, none⟩, ⟨2023, 6, none, none⟩,
                         ⟨2024, 8, none, none⟩] : List YRow).map
              (fun s => ((s.year : ℚ), s.total_value)))
            ((maxYear [⟨2022, 4, none, none⟩, ⟨2023, 6, none, none⟩,
                       ⟨2024, 8, none, none⟩] + 1 : ℤ) : ℚ)) :=
  ⟨by decide, by decide,
   C2_forecast_matches_polyfit _ (by decide) (by decide)⟩

/-- The inner weight loop accumulates the filtered term and weight sums. -/
lemma esg_inner_foldl (ws : List (String × ℚ)) (k : String) (v : ℚ) (acc : ℚ × ℚ) :
    ws.foldl (fun acc2 kw =>
        if strIn kw.1 (lowerStr k) then
          (acc2.1 + max 0 (100 - v) * kw.2, acc2.2 + kw.2)
        else acc2) acc
      = (acc.1 + ((ws.filter (fun kw => strIn kw.1 (lowerStr k))).map
            (fun kw => max 0 (100 - v) * kw.2)).sum,
         acc.2 + ((ws.filter (fun kw => strIn kw.1 (lowerStr k))).map Prod.snd).sum) := by
  induction ws generalizing acc with
  | nil => simp
  | cons w t ih =>
    simp only [List.foldl_cons, List.filter_cons]
    by_cases h : strIn w.1 (lowerStr k) = true
    · rw [if_pos h, ih]
      simp only [h, if_pos, List.map_cons, List.sum_cons]
      exact Prod.ext (by ring) (by ring)
    · rw [if_neg h, ih]
      simp only [h]
      rw [if_neg (by simp [h])]

/-- The ESG accumulation loop computes the sums over the match pairs. -/
lemma esg_foldl (kpis : List (String × PyVal)) (acc : ℚ × ℚ) :
    kpis.foldl esgStep acc
      = (acc.1 + ((esgMatches kpis).map (fun p => max 0 (100 - p.1) * p.2)).sum,
         acc.2 + ((esgMatches kpis).map Prod.snd).sum) := by
  induction kpis generalizing acc with
  | nil => simp [esgMatches]
  | cons kv t ih =>
    simp only [List.foldl_cons, esgMatches]
    cases hv : normalize_numeric kv.2 with
    | none =>
      rw [show esgStep acc kv = acc by simp [esgStep, hv], ih]
      simp
    | some v =>
      rw [show esgStep acc kv
            = esgWeights.foldl (fun acc2 kw =>
                if strIn kw.1 (lowerStr kv.1) then
                  (acc2.1 + max 0 (100 - v) * kw.2, acc2.2 + kw.2)
                else acc2) acc by simp [esgStep, hv], esg_inner_foldl, ih]
      simp only [List.map_append, List.sum_append, List.map_map]
      have h1 : List.map ((fun p => max 0 (100 - p.1) * p.2) ∘ fun kw => ((v : ℚ), kw.2))
            (List.filter (fun kw => strIn kw.1 (lowerStr kv.1)) esgWeights)
          = List.map (fun kw => max 0 (100 - v) * kw.2)
              (List.filter (fun kw => strIn kw.1 (lowerStr kv.1)) esgWeights) := rfl
      have h2 : List.map (Prod.snd ∘ fun kw => ((v : ℚ), kw.2))
            (List.filter (fun kw => strIn kw.1 (lowerStr kv.1)) esgWeights)
          = List.map Prod.snd
              (List.filter (fun kw => strIn kw.1 (lowerStr kv.1)) esgWeights) := rfl
      rw [h1, h2]
      exact Prod.ext (by ring) (by ring)

/-- C3 counterexample: at the single KPI `{"energy": 100/3}` the returned
score is the 2-decimal rounding `66.67`, not the exact weighted quotient
`200/3` the claim describes. -/
theorem C3_weighted_sum_cex :
    (calculate_esg_score [("energy", PyVal.num (100/3))]).1
      ≠ ((esgMatches [("energy", PyVal.num (100/3))]).map
            (fun p => max 0 (100 - p.1) * p.2)).sum
          / ((esgMatches [("energy", PyVal.num (100/3))]).map Prod.snd).sum := by
  have e1 : strIn "energy" (lowerStr "energy") = true := rfl
  have e2 : strIn "water" (lowerStr "energy") = false := rfl
  have e3 : strIn "emission" (lowerStr "energy") = false := rfl
  have e4 : strIn "waste" (lowerStr "energy") = false := rfl
  have hm : esgMatches [("energy", PyVal.num (100/3))] = [(100/3, 0.25)] := by
    simp [esgMatches, esgWeights, normalize_numeric, e1, e2, e3, e4]
  have hc : calculate_esg_score [("energy", PyVal.num (100/3))]
      = (round2 ((max 0 (100 - 100/3) * 0.25) / 0.25),
         classify_kpi (.num (100 - round2 ((max 0 (100 - 100/3) * 0.25) / 0.25)))) := by
    unfold calculate_esg_score
    rw [List.foldl_cons, List.foldl_nil, show esgStep (0, 0) ("energy", PyVal.num (100/3))
          = esgWeights.foldl (fun acc2 kw =>
              if strIn kw.1 (lowerStr "energy") then
                (acc2.1 + max 0 (100 - 100/3) * kw.2, acc2.2 + kw.2)
              else acc2) (0, 0) by simp [esgStep, normalize_numeric],
        esg_inner_foldl]
    simp only [esgWeights, List.filter_cons, e1, e2, e3, e4]
    norm_num
  rw [hc, hm]
  have hmax : max (0 : ℚ) (100 - 100/3) = 200/3 := by
    rw [max_eq_right (by norm_num)]
    norm_num
  rw [hmax]
  norm_num [round2, roundHalfEven]

/-- C3 (amended): whenever some weight matches, `calculate_esg_score` returns
the clamped weighted sum `Σ w·max(0, 100-v)` over the match pairs, divided by
the total matched weight, rounded to 2 decimal places, together with the
`classify_kpi` label of 100 minus that score. -/
theorem C3_esg_weighted_sum (kpis : List (String × PyVal))
    (hW : ((esgMatches kpis).map Prod.snd).sum ≠ 0) :
    calculate_esg_score kpis
      = (round2 (((esgMatches kpis).map (fun p => max 0 (100 - p.1) * p.2)).sum
            / ((esgMatches kpis).map Prod.snd).sum),
         classify_kpi (.num (100
            - round2 (((esgMatches kpis).map (fun p => max 0 (100 - p.1) * p.2)).sum
                / ((esgMatches kpis).map Prod.snd).sum)))) := by
  unfold calculate_esg_score
  rw [esg_foldl]
  simp only [zero_add]
  rw [if_neg hW]

/-- Witness for C3 at `{"energy": 50}`. -/
theorem C3_esg_weighted_sum_wit :
    ((esgMatches [("energy", PyVal.num 50)]).map Prod.snd).sum ≠ 0
    ∧ calculate_esg_score [("energy", PyVal.num 50)]
      = (round2 (((esgMatches [("energy", PyVal.num 50)]).map
            (fun p => max 0 (100 - p.1) * p.2)).sum
            / ((esgMatches [("energy", PyVal.num 50)]).map Prod.snd).sum),
         classify_kpi (.num (100
            - round2 (((esgMatches [("energy", PyVal.num 50)]).map
                (fun p => max 0 (100 - p.1) * p.2)).sum
                / ((esgMatches [("energy", PyVal.num 50)]).map Prod.snd).sum)))) := by
  have e1 : strIn "energy" (lowerStr "energy") = true := rfl
  have e2 : strIn "water" (lowerStr "energy") = false := rfl
  have e3 : strIn "emission" (lowerStr "energy") = false := rfl
  have e4 : strIn "waste" (lowerStr "energy") = false := rfl
  have hm : esgMatches [("energy", PyVal.num 50)] = [(50, 0.25)] := by
    simp [esgMatches, esgWeights, normalize_numeric, e1, e2, e3, e4]
  have hW : ((esgMatches [("energy", PyVal.num 50)]).map Prod.snd).sum ≠ 0 := by
    rw [hm]
    norm_num
  exact ⟨hW, C3_esg_weighted_sum _ hW⟩

lemma mem_insertByMonth {a r : Row} {l : List Row} :
    a ∈ insertByMonth r l ↔ a = r ∨ a ∈ l := by
  induction l with
  | nil => simp [insertByMonth]
  | cons x xs ih =>
    simp only [insertByMonth]
    split
    · simp only [List.mem_cons, ih]
      tauto
    · simp only [List.mem_cons]

lemma mem_sortByMonth {a : Row} {l : List Row} :
    a ∈ sortByMonth l ↔ a ∈ l := by
  induction l with
  | nil => simp [sortByMonth]
  | cons x xs ih =>
    show a ∈ insertByMonth x (sortByMonth xs) ↔ _
    rw [mem_insertByMonth, ih]
    simp [List.mem_cons]

lemma normalizeMonths_mem {table : List InRow} {mid : List (InRow × ℤ)}
    (h : normalizeMonths table = .ok mid) :
    ∀ p ∈ mid, p.1 ∈ table ∧ normalize_month p.1.month = .ok p.2 := by
  induction table generalizing mid with
  | nil =>
    simp only [normalizeMonths] at h
    injection h with h'
    subst h'
    intro p hp
    cases hp
  | cons r rs ih =>
    simp only [normalizeMonths] at h
    cases hm : normalize_month r.month <;> rw [hm] at h
    · cases h
    · cases hrest : normalizeMonths rs <;> rw [hrest] at h
      · cases h
      · injection h with h'
        subst h'
        intro p hp
        rcases List.mem_cons.1 hp with rfl | hp'
        · exact ⟨List.mem_cons_self _ _, hm⟩
        · obtain ⟨h1, h2⟩ := ih hrest p hp'
          exact ⟨List.mem_cons_of_mem _ h1, h2⟩

/-- Every output row of `load_year_dataframe` comes from an input row of the
requested year; its month is the normalized input month and its value the
`fillna(0)`-coerced input value. -/
lemma load_rows_spec {year : ℤ} {table : List InRow} {rows : List Row}
    (h : load_year_dataframe year table = .ok rows) :
    ∀ r ∈ rows, ∃ s ∈ table, s.year = some year
      ∧ normalize_month s.month = .ok r.month
      ∧ r.value = fillna0 s.value ∧ r.year = year := by
  unfold load_year_dataframe at h
  cases hnm : normalizeMonths table <;> rw [hnm] at h
  · cases h
  · injection h with h'
    subst h'
    intro r hr
    rw [mem_sortByMonth, List.mem_map] at hr
    obtain ⟨rm, hrm, rfl⟩ := hr
    rw [List.mem_filter] at hrm
    obtain ⟨hmem, hyr⟩ := hrm
    obtain ⟨hs, hnorm⟩ := normalizeMonths_mem hnm rm hmem
    exact ⟨rm.1, hs, by simpa using hyr, by rw [hnorm], rfl, rfl⟩

/-- C5: every row of a loaded year table carries the `to_numeric`-coerced,
`fillna(0)`-filled reading of its source row's Value cell; in particular a
non-numeric Value cell enters the dataframe (and every downstream sum) as 0,
not as missing. -/
theorem C5_nonnumeric_value_becomes_zero :
    ∀ (year : ℤ) (table : List InRow) (rows : List Row),
      load_year_dataframe year table = .ok rows →
      ∀ r ∈ rows, ∃ s ∈ table, s.year = some year
        ∧ r.value = fillna0 s.value
        ∧ (s.value = none → r.value = 0) := by
  intro year table rows h r hr
  obtain ⟨s, hs, hy, _, hv, _⟩ := load_rows_spec h r hr
  exact ⟨s, hs, hy, hv, fun hnone => by rw [hv, hnone]; rfl⟩

/-- Witness for C5: a sheet whose only 2024 row has a non-numeric Value. -/
theorem C5_nonnumeric_value_becomes_zero_wit :
    load_year_dataframe 2024 [⟨some 2024, "05", "Waste", none, none⟩]
      = .ok [⟨2024, 5, "Waste", none, 0⟩]
    ∧ (⟨2024, 5, "Waste", none, 0⟩ : Row) ∈ [(⟨2024, 5, "Waste", none, 0⟩ : Row)]
    ∧ ∃ s ∈ [(⟨some 2024, "05", "Waste", none, none⟩ : InRow)],
        s.year = some 2024
        ∧ (⟨2024, 5, "Waste", none, 0⟩ : Row).value = fillna0 s.value
        ∧ (s.value = none → (⟨2024, 5, "Waste", none, 0⟩ : Row).value = 0) := by
  have hl : load_year_dataframe 2024 [⟨some 2024, "05", "Waste", none, none⟩]
      = .ok [⟨2024, 5, "Waste", none, 0⟩] := rfl
  have hm : (⟨2024, 5, "Waste", none, 0⟩ : Row) ∈ [(⟨2024, 5, "Waste", none, 0⟩ : Row)] :=
    List.mem_cons_self _ _
  exact ⟨hl, hm, C5_nonnumeric_value_becomes_zero 2024 _ _ hl _ hm⟩

/-- C8: `normalize_month` either returns a month in `1..12` or raises
`ValueError` with the source's message; out-of-range numeric strings like
"0" and "13" raise; recognized names, Arabic names and numeric strings map
to their month number; hence every loaded year table's Month column lies in
`1..12`. -/
theorem C8_normalize_month_range :
    (∀ v : String, (∃ n, normalize_month v = .ok n ∧ 1 ≤ n ∧ n ≤ 12)
        ∨ normalize_month v = .error ("Unrecognized month format: " ++ v))
    ∧ normalize_month "0" = .error "Unrecognized month format: 0"
    ∧ normalize_month "13" = .error "Unrecognized month format: 13"
    ∧ normalize_month "September" = .ok 9
    ∧ normalize_month "يناير" = .ok 1
    ∧ normalize_month "12" = .ok 12
    ∧ (∀ (year : ℤ) (table : List InRow) (rows : List Row),
        load_year_dataframe year table = .ok rows →
        ∀ r ∈ rows, 1 ≤ r.month ∧ r.month ≤ 12) := by
  have hmap : ∀ p ∈ MONTH_MAP, 1 ≤ p.2 ∧ p.2 ≤ 12 := by decide
  have hrange : ∀ (v : String) (n : ℤ), normalize_month v = .ok n → 1 ≤ n ∧ n ≤ 12 := by
    intro v n h
    unfold normalize_month at h
    cases hf : MONTH_MAP.find? (fun p => p.1 == lowerStr (stripStr v)) <;>
      rw [hf] at h <;> simp only at h
    · cases hp : pyInt (lowerStr (stripStr v)) <;> rw [hp] at h <;> simp only at h
      · cases h
      · rename_i num
        by_cases hr : 1 ≤ num ∧ num ≤ 12
        · rw [if_pos hr] at h
          injection h with h'
          subst h'
          exact hr
        · rw [if_neg hr] at h
          cases h
    · injection h with h'
      subst h'
      exact hmap _ (List.mem_of_find?_eq_some hf)
  refine ⟨?_, rfl, rfl, rfl, rfl, rfl, ?_⟩
  · intro v
    unfold normalize_month
    cases hf : MONTH_MAP.find? (fun p => p.1 == lowerStr (stripStr v))
    · cases hp : pyInt (lowerStr (stripStr v))
      · exact Or.inr rfl
      · rename_i num
        by_cases hr : 1 ≤ num ∧ num ≤ 12
        · refine Or.inl ⟨num, ?_, hr⟩
          show (if 1 ≤ num ∧ num ≤ 12 then Except.ok num
            else Except.error ("Unrecognized month format: " ++ v)) = Except.ok num
          rw [if_pos hr]
        · refine Or.inr ?_
          show (if 1 ≤ num ∧ num ≤ 12 then Except.ok num
            else Except.error ("Unrecognized month format: " ++ v))
            = Except.error ("Unrecognized month format: " ++ v)
          rw [if_neg hr]
    · rename_i p
      exact Or.inl ⟨p.2, rfl, hmap _ (List.mem_of_find?_eq_some hf)⟩
  · intro year table rows h r hr
    obtain ⟨s, _, _, hnorm, _, _⟩ := load_rows_spec h r hr
    exact hrange _ _ hnorm

/-- Witness for C8 on a one-row October 2021 sheet. -/
theorem C8_normalize_month_range_wit :
    load_year_dataframe 2021 [⟨some 2021, "oct", "Energy", none, some 3⟩]
      = .ok [⟨2021, 10, "Energy", none, 3⟩]
    ∧ (⟨2021, 10, "Energy", none, 3⟩ : Row) ∈ [(⟨2021, 10, "Energy", none, 3⟩ : Row)]
    ∧ 1 ≤ (⟨2021, 10, "Energy", none, (3 : ℚ)⟩ : Row).month
    ∧ (⟨2021, 10, "Energy", none, (3 : ℚ)⟩ : Row).month ≤ 12 := by
  have hl : load_year_dataframe 2021 [⟨some 2021, "oct", "Energy", none, some 3⟩]
      = .ok [⟨2021, 10, "Energy", none, 3⟩] := rfl
  have hm : (⟨2021, 10, "Energy", none, 3⟩ : Row)
      ∈ [(⟨2021, 10, "Energy", none, 3⟩ : Row)] := List.mem_cons_self _ _
  obtain ⟨h1, h2⟩ := C8_normalize_month_range.2.2.2.2.2.2 2021 _ _ hl _ hm
  exact ⟨hl, hm, h1, h2⟩

lemma roundHalfEven_nonneg {q : ℚ} (h : 0 ≤ q) : 0 ≤ roundHalfEven q := by
  unfold roundHalfEven
  have hf : (0 : ℤ) ≤ ⌊q⌋ := Int.floor_nonneg.2 h
  split
  · exact hf
  · split
    · linarith
    · split
      · exact hf
      · linarith

lemma roundHalfEven_le {q : ℚ} {B : ℤ} (h : q ≤ (B : ℚ)) : roundHalfEven q ≤ B := by
  unfold roundHalfEven
  have hfB : ⌊q⌋ ≤ B := by
    have := Int.floor_mono h
    rwa [Int.floor_intCast] at this
  split
  · exact hfB
  · rename_i hlt
    split
    · rename_i hgt
      have hq : (⌊q⌋ : ℚ) < q := by linarith
      by_contra hc
      have hEq : ⌊q⌋ = B := by omega
      rw [hEq] at hq
      linarith
    · rename_i hgt
      have hfr : q - ⌊q⌋ = 1/2 := le_antisymm (not_lt.1 hgt) (not_lt.1 hlt)
      have hq : (⌊q⌋ : ℚ) < q := by linarith
      split
      · exact hfB
      · by_contra hc
        have hEq : ⌊q⌋ = B := by omega
        rw [hEq] at hq
        linarith

lemma filterMap_id_replicate_none (n : ℕ) :
    (List.replicate n (none : Option ℚ)).filterMap id = [] := by
  induction n with
  | zero => rfl
  | succ k ih => simp [List.replicate_succ, ih]

lemma filterMap_id_replicate_some (n : ℕ) (q : ℚ) :
    (List.replicate n (some q)).filterMap id = List.replicate n q := by
  induction n with
  | zero => rfl
  | succ k ih => simp [List.replicate_succ, ih]

/-- C9 counterexample: with 199 missing entries and one numeric one the
status is Partial with coverage 0 (not `0 < c`); with 199 numeric entries
and one missing it is Partial with coverage 100 (not `c < 100`). -/
theorem C9_partial_coverage_cex :
    indicator_status (List.replicate 199 (none : Option ℚ) ++ [some 1])
      = ("Partial", 0)
    ∧ indicator_status (List.replicate 199 (some (1 : ℚ)) ++ [none])
      = ("Partial", 100) := by
  constructor
  · have h1 : ((List.replicate 199 (none : Option ℚ) ++ [some 1]).filterMap id).length
        = 1 := by
      rw [List.filterMap_append, filterMap_id_replicate_none]
      rfl
    have h2 : (List.replicate 199 (none : Option ℚ) ++ [some 1]).length = 200 := by
      rw [List.length_append, List.length_replicate]
      rfl
    unfold indicator_status
    rw [h1, h2, if_neg (by norm_num), if_pos (by norm_num)]
    have hq : ((1 : ℕ) : ℚ) / ((200 : ℕ) : ℚ) * 100 = 1/2 := by
      push_cast
      norm_num
    have hc : roundHalfEven (((1 : ℕ) : ℚ) / ((200 : ℕ) : ℚ) * 100) = 0 := by
      rw [hq]
      unfold roundHalfEven
      rw [show ⌊(1 : ℚ)/2⌋ = 0 by norm_num]
      norm_num
    rw [hc]
  · have h1 : ((List.replicate 199 (some (1 : ℚ)) ++ [none]).filterMap id).length
        = 199 := by
      rw [List.filterMap_append, filterMap_id_replicate_some]
      rfl
    have h2 : (List.replicate 199 (some (1 : ℚ)) ++ [none]).length = 200 := by
      rw [List.length_append, List.length_replicate]
      rfl
    unfold indicator_status
    rw [h1, h2, if_neg (by norm_num), if_pos (by norm_num)]
    have hq : ((199 : ℕ) : ℚ) / (200 : ℕ) * 100 = 199/2 := by
      push_cast
      norm_num
    have hfl : ⌊(199 : ℚ)/2⌋ = 99 := by
      rw [Int.floor_eq_iff]
      norm_num
    have hc : roundHalfEven (((199 : ℕ) : ℚ) / (200 : ℕ) * 100) = 100 := by
      rw [hq]
      unfold roundHalfEven
      rw [hfl]
      norm_num
    rw [hc]

/-- C9 (amended): `indicator_status` is total; it is ("Not Reported", 0)
exactly when no entry is numeric, ("Reported", 100) exactly when at least one
entry exists and all are numeric, and otherwise ("Partial", c) with
`c = round(reported/total·100)` (ties to even) — `c` always lies in
`[0, 100]`, reaching 0 and 100 at extreme coverage ratios. -/
theorem C9_indicator_status_total (values : List (Option ℚ)) :
    (indicator_status values = ("Not Reported", 0)
      ↔ (values.filterMap id).length = 0)
    ∧ (indicator_status values = ("Reported", 100)
      ↔ ((values.filterMap id).length ≠ 0
          ∧ (values.filterMap id).length = values.length))
    ∧ ((values.filterMap id).length ≠ 0 →
        (values.filterMap id).length < values.length →
        indicator_status values
          = ("Partial",
             roundHalfEven (((values.filterMap id).length : ℚ)
                / (values.length : ℚ) * 100))
        ∧ 0 ≤ roundHalfEven (((values.filterMap id).length : ℚ)
                / (values.length : ℚ) * 100)
        ∧ roundHalfEven (((values.filterMap id).length : ℚ)
                / (values.length : ℚ) * 100) ≤ 100) := by
  have hrt : (values.filterMap id).length ≤ values.length :=
    List.length_filterMap_le _ _
  by_cases hr0 : (values.filterMap id).length = 0
  · have hres : indicator_status values = ("Not Reported", 0) := by
      unfold indicator_status
      rw [if_pos hr0]
    refine ⟨?_, ?_, fun hne _ => absurd hr0 hne⟩
    · rw [hres]
      exact ⟨fun _ => hr0, fun _ => rfl⟩
    · rw [hres]
      constructor
      · intro h
        exact absurd (congrArg Prod.fst h) (by decide)
      · rintro ⟨hne, -⟩
        exact absurd hr0 hne
  · by_cases hlt : (values.filterMap id).length < values.length
    · have hres : indicator_status values
          = ("Partial", roundHalfEven (((values.filterMap id).length : ℚ)
              / (values.length : ℚ) * 100)) := by
        unfold indicator_status
        rw [if_neg hr0, if_pos hlt]
      have hTpos : 0 < values.length :=
        Nat.lt_of_lt_of_le (Nat.pos_of_ne_zero hr0) hrt
      have hpos : (0 : ℚ) < (values.length : ℚ) := by exact_mod_cast hTpos
      refine ⟨?_, ?_, fun _ _ => ⟨hres, ?_, ?_⟩⟩
      · rw [hres]
        constructor
        · intro h
          have hfst := congrArg Prod.fst h
          simp only at hfst
          exact absurd hfst (by decide)
        · intro h
          exact absurd h hr0
      · rw [hres]
        constructor
        · intro h
          have hfst := congrArg Prod.fst h
          simp only at hfst
          exact absurd hfst (by decide)
        · rintro ⟨-, he⟩
          exact absurd he (Nat.ne_of_lt hlt)
      · exact roundHalfEven_nonneg (by positivity)
      · refine roundHalfEven_le ?_
        have h1 : ((values.filterMap id).length : ℚ) / (values.length : ℚ) ≤ 1 := by
          rw [div_le_one hpos]
          exact_mod_cast hrt
        push_cast
        nlinarith
    · have heq : (values.filterMap id).length = values.length :=
        le_antisymm hrt (not_lt.1 hlt)
      have hres : indicator_status values = ("Reported", 100) := by
        unfold indicator_status
        rw [if_neg hr0, if_neg hlt]
      refine ⟨?_, ?_, fun _ hc => absurd hc hlt⟩
      · rw [hres]
        constructor
        · intro h
          exact absurd (congrArg Prod.fst h) (by decide)
        · intro h
          exact absurd h hr0
      · rw [hres]
        exact ⟨fun _ => ⟨hr0, heq⟩, fun _ => rfl⟩

/-- Witness for C9: two entries, one numeric. -/
theorem C9_indicator_status_total_wit :
    ([some (1 : ℚ), none].filterMap id).length ≠ 0
    ∧ ([some (1 : ℚ), none].filterMap id).length < [some (1 : ℚ), none].length
    ∧ indicator_status [some (1 : ℚ), none]
        = ("Partial",
           roundHalfEven ((([some (1 : ℚ), none].filterMap id).length : ℚ)
              / (([some (1 : ℚ), none] : List (Option ℚ)).length : ℚ) * 100))
    ∧ 0 ≤ roundHalfEven ((([some (1 : ℚ), none].filterMap id).length : ℚ)
              / (([some (1 : ℚ), none] : List (Option ℚ)).length : ℚ) * 100)
    ∧ roundHalfEven ((([some (1 : ℚ), none].filterMap id).length : ℚ)
              / (([some (1 : ℚ), none] : List (Option ℚ)).length : ℚ) * 100) ≤ 100 := by
  have h1 : ([some (1 : ℚ), none].filterMap id).length ≠ 0 := by decide
  have h2 : ([some (1 : ℚ), none].filterMap id).length < [some (1 : ℚ), none].length := by
    decide
  obtain ⟨ha, hb, hc⟩ := (C9_indicator_status_total [some (1 : ℚ), none]).2.2 h1 h2
  exact ⟨h1, h2, ha, hb, hc⟩

lemma anomalyFlag_iff (z : ℝ) :
    (anomalyFlag z = "High Anomaly" ∨ anomalyFlag z = "Low Anomaly") ↔ 2 < |z| := by
  unfold anomalyFlag
  by_cases h1 : 2 < z
  · rw [if_pos h1]
    constructor
    · intro _
      rw [lt_abs]
      exact Or.inl h1
    · intro _
      exact Or.inl rfl
  · rw [if_neg h1]
    by_cases h2 : z < -2
    · rw [if_pos h2]
      constructor
      · intro _
        rw [lt_abs]
        right
        linarith
      · intro _
        exact Or.inr rfl
    · rw [if_neg h2]
      have habs : ¬ (2 < |z|) := by
        rw [lt_abs]
        push_neg
        exact ⟨not_lt.1 h1, by linarith [not_lt.1 h2]⟩
      constructor
      · rintro (hc | hc) <;> split at hc <;> exact absurd hc (by decide)
      · intro hc
        exact absurd hc habs

/-- C4: `detect_anomalies` flags a row High/Low Anomaly exactly when the
absolute value of its standardized z-score exceeds 2, and the PDF exporter
lists a year as an anomaly exactly when its value differs from the mean by
more than 2 (sample) standard deviations. -/
theorem C4_anomaly_iff_threshold :
    (∀ (col : List (Option ℚ)) (i : ℕ),
        ((detect_anomalies col).2.getD i "Normal" = "High Anomaly"
          ∨ (detect_anomalies col).2.getD i "Normal" = "Low Anomaly")
        ↔ 2 < |(detect_anomalies col).1.getD i 0|)
    ∧ (∀ (year_cols : List String) (values : List (Option ℚ)) (y : String),
        y ∈ pdfAnomalies year_cols values
        ↔ ∃ v : ℚ, (y, some v) ∈ year_cols.zip values
            ∧ 2 * pdfStd values < |(v : ℝ) - ((pdfMean values : ℚ) : ℝ)|) := by
  constructor
  · intro col i
    simp only [detect_anomalies]
    by_cases h : i < (zscores col).length
    · obtain ⟨z, hz⟩ : ∃ z, (zscores col)[i]? = some z :=
        ⟨_, List.getElem?_eq_getElem h⟩
      have e1 : ((zscores col).map anomalyFlag).getD i "Normal" = anomalyFlag z := by
        rw [List.getD_eq_getElem?_getD, List.getElem?_map, hz]
        rfl
      have e2 : (zscores col).getD i 0 = z := by
        rw [List.getD_eq_getElem?_getD, hz]
        rfl
      rw [e1, e2]
      exact anomalyFlag_iff z
    · have hge : (zscores col).length ≤ i := not_lt.1 h
      have e1 : ((zscores col).map anomalyFlag).getD i "Normal" = "Normal" :=
        List.getD_eq_default _ _ (by simpa using hge)
      have e2 : (zscores col).getD i 0 = 0 := List.getD_eq_default _ _ hge
      rw [e1, e2]
      constructor
      · rintro (hc | hc) <;> exact absurd hc (by decide)
      · intro hc
        norm_num at hc
  · intro year_cols values y
    unfold pdfAnomalies
    rw [List.mem_map]
    constructor
    · rintro ⟨p, hp, rfl⟩
      rw [List.mem_filter] at hp
      obtain ⟨hmem, hcond⟩ := hp
      cases hv : p.2 with
      | none =>
        rw [hv] at hcond
        simp at hcond
      | some v =>
        rw [hv] at hcond
        simp only at hcond
        by_cases hc : 2 * pdfStd values < |(v : ℝ) - ((pdfMean values : ℚ) : ℝ)|
        · refine ⟨v, ?_, hc⟩
          have hpv : (p.1, some v) = p := by
            rw [← hv]
          rw [hpv]
          exact hmem
        · rw [if_neg hc] at hcond
          cases hcond
    · rintro ⟨v, hmem, hcond⟩
      refine ⟨(y, some v), ?_, rfl⟩
      rw [List.mem_filter]
      refine ⟨hmem, ?_⟩
      show (if 2 * pdfStd values < |(v : ℝ) - ((pdfMean values : ℚ) : ℝ)| then true
        else false) = true
      rw [if_pos hcond]

/-- C6: `answer` forwards the query to the general LLM call exactly when no
indicator keyword occurs in the lowercased query, and otherwise dispatches to
the single indicator of the first matching keyword list in the fixed order
energy, water, emissions, waste (an energy keyword wins over a water one). -/
theorem C6_keyword_dispatch :
    (∀ (llm : String → Except String String) (query : String) (df : List Row),
        detect_indicator query = none → agent_answer llm query df = llm query)
    ∧ (∀ query : String, detect_indicator query = none
        ↔ ∀ kw ∈ energyKws ++ waterKws ++ emissionKws ++ wasteKws,
            strIn kw (lowerStr query) = false)
    ∧ (∀ query : String, (∃ kw ∈ energyKws, strIn kw (lowerStr query) = true) →
        detect_indicator query = some "energy")
    ∧ (∀ query : String,
        (∀ kw ∈ energyKws, strIn kw (lowerStr query) = false) →
        (∃ kw ∈ waterKws, strIn kw (lowerStr query) = true) →
        detect_indicator query = some "water")
    ∧ (∀ query : String,
        (∀ kw ∈ energyKws ++ waterKws, strIn kw (lowerStr query) = false) →
        (∃ kw ∈ emissionKws, strIn kw (lowerStr query) = true) →
        detect_indicator query = some "emissions")
    ∧ (∀ query : String,
        (∀ kw ∈ energyKws ++ waterKws ++ emissionKws,
            strIn kw (lowerStr query) = false) →
        (∃ kw ∈ wasteKws, strIn kw (lowerStr query) = true) →
        detect_indicator query = some "waste") := by
  have hfalse : ∀ (l : List String) (query : String),
      (∀ kw ∈ l, strIn kw (lowerStr query) = false) →
      l.any (fun x => strIn x (lowerStr query)) = false := by
    intro l query h
    rw [List.any_eq_false]
    intro x hx
    simp [h x hx]
  refine ⟨?_, ?_, ?_, ?_, ?_, ?_⟩
  · intro llm query df h
    unfold agent_answer
    rw [h]
  · intro query
    constructor
    · intro h kw hkw
      unfold detect_indicator at h
      split at h
      · cases h
      · split at h
        · cases h
        · split at h
          · cases h
          · split at h
            · cases h
            · rename_i h1 h2 h3 h4
              rw [Bool.not_eq_true, List.any_eq_false] at h1 h2 h3 h4
              simp only [List.mem_append] at hkw
              rcases hkw with ((hk | hk) | hk) | hk
              · simpa using h1 kw hk
              · simpa using h2 kw hk
              · simpa using h3 kw hk
              · simpa using h4 kw hk
    · intro hall
      have h1 : energyKws.any (fun x => strIn x (lowerStr query)) = false :=
        hfalse _ _ (fun kw hk => hall kw (by simp [List.mem_append, hk]))
      have h2 : waterKws.any (fun x => strIn x (lowerStr query)) = false :=
        hfalse _ _ (fun kw hk => hall kw (by simp [List.mem_append, hk]))
      have h3 : emissionKws.any (fun x => strIn x (lowerStr query)) = false :=
        hfalse _ _ (fun kw hk => hall kw (by simp [List.mem_append, hk]))
      have h4 : wasteKws.any (fun x => strIn x (lowerStr query)) = false :=
        hfalse _ _ (fun kw hk => hall kw (by simp [List.mem_append, hk]))
      unfold detect_indicator
      rw [h1, h2, h3, h4]
      rfl
  · rintro query ⟨kw, hkw, hin⟩
    have h1 : energyKws.any (fun x => strIn x (lowerStr query)) = true :=
      List.any_eq_true.2 ⟨kw, hkw, hin⟩
    unfold detect_indicator
    rw [h1]
    rfl
  · rintro query hen ⟨kw, hkw, hin⟩
    have h1 : energyKws.any (fun x => strIn x (lowerStr query)) = false :=
      hfalse _ _ hen
    have h2 : waterKws.any (fun x => strIn x (lowerStr query)) = true :=
      List.any_eq_true.2 ⟨kw, hkw, hin⟩
    unfold detect_indicator
    rw [h1, h2]
    rfl
  · rintro query hprev ⟨kw, hkw, hin⟩
    have h1 : energyKws.any (fun x => strIn x (lowerStr query)) = false :=
      hfalse _ _ (fun k hk => hprev k (by simp [List.mem_append, hk]))
    have h2 : waterKws.any (fun x => strIn x (lowerStr query)) = false :=
      hfalse _ _ (fun k hk => hprev k (by simp [List.mem_append, hk]))
    have h3 : emissionKws.any (fun x => strIn x (lowerStr query)) = true :=
      List.any_eq_true.2 ⟨kw, hkw, hin⟩
    unfold detect_indicator
    rw [h1, h2, h3]
    rfl
  · rintro query hprev ⟨kw, hkw, hin⟩
    have h1 : energyKws.any (fun x => strIn x (lowerStr query)) = false :=
      hfalse _ _ (fun k hk => hprev k (by simp [List.mem_append, hk]))
    have h2 : waterKws.any (fun x => strIn x (lowerStr query)) = false :=
      hfalse _ _ (fun k hk => hprev k (by simp [List.mem_append, hk]))
    have h3 : emissionKws.any (fun x => strIn x (lowerStr query)) = false :=
      hfalse _ _ (fun k hk => hprev k (by simp [List.mem_append, hk]))
    have h4 : wasteKws.any (fun x => strIn x (lowerStr query)) = true :=
      List.any_eq_true.2 ⟨kw, hkw, hin⟩
    unfold detect_indicator
    rw [h1, h2, h3, h4]
    rfl

/-- Witness for C6: "hello" is forwarded to the LLM; "energy and water"
dispatches to energy despite also containing a water keyword. -/
theorem C6_keyword_dispatch_wit :
    detect_indicator "hello" = none
    ∧ agent_answer (fun q => .ok ("general:" ++ q)) "hello" []
        = (fun q => (.ok ("general:" ++ q) : Except String String)) "hello"
    ∧ ("energy" ∈ energyKws ∧ strIn "energy" (lowerStr "energy and water") = true)
    ∧ detect_indicator "energy and water" = some "energy" := by
  have h0 : detect_indicator "hello" = none := rfl
  exact ⟨h0, C6_keyword_dispatch.1 _ _ _ h0, ⟨by decide, rfl⟩,
    C6_keyword_dispatch.2.2.1 "energy and water" ⟨"energy", by decide, rfl⟩⟩

lemma find?_year_getD (df : List Row) (y : ℤ) :
    (((agentYearly df).find? (fun row => row.year == y)).getD
      ⟨y, 0, none, none⟩).year = y := by
  cases hf : (agentYearly df).find? (fun row => row.year == y) with
  | none => rfl
  | some row =>
    have h := List.find?_some hf
    simpa using h

lemma narrLookup_agentNarrs {key : String} {df : List Row} {unit : String}
    {valid : List ℤ} {y : ℤ} (hy : y ∈ valid) :
    narrLookup (agentNarrs key df valid unit) y
      = build_indicator_narrative key df y unit := by
  unfold narrLookup agentNarrs
  induction valid with
  | nil => cases hy
  | cons a l ih =>
    simp only [List.map_cons]
    by_cases hay : a = y
    · subst hay
      rw [List.find?_cons_of_pos _ (by simp)]
      rfl
    · rw [List.find?_cons_of_neg _ (by simp [hay])]
      have hy' : y ∈ l := by
        rcases List.mem_cons.1 hy with h | h
        · exact absurd h.symm hay
        · exact h
      exact ih hy'

/-- C7 counterexample: with a one-row energy table and an LLM call that
raises, `answer` returns a normal (`.ok`) fallback string — it does not
terminate with only a displayed error and no further result. -/
theorem C7_fallback_not_halt_cex :
    (agent_answer (fun _ => .error "boom") "energy 2023"
        [⟨2023, 1, "Energy", some "kWh", 5⟩]).isOk = true
    ∧ agent_answer (fun _ => .error "boom") "energy 2023"
        [⟨2023, 1, "Energy", some "kWh", 5⟩] ≠ .error "boom" := by
  have h : (agent_answer (fun _ => .error "boom") "energy 2023"
      [⟨2023, 1, "Energy", some "kWh", 5⟩]).isOk = true := rfl
  refine ⟨h, ?_⟩
  intro hk
  rw [hk] at h
  cases h

/-- C7 (amended): whenever an indicator query reaches the LLM call and the
call raises, `answer` catches the exception and returns `.ok` of the locally
assembled fallback string; the fallback lines contain the LLM error text and
the narrative of every valid year. -/
theorem C7_llm_error_returns_fallback
    (llm : String → Except String String) (query : String)
    (df : List Row) (key : String) (pMeta : String × IndicatorSheet)
    (yearsReq : List ℤ) (r0 : Row) (rest : List Row) (exc : String)
    (hdet : detect_indicator query = some key)
    (hmeta : INDICATORS.find? (fun p => p.1 == key) = some pMeta)
    (hyears : detect_years query df = .ok yearsReq)
    (hvalid : agentYearsValid df yearsReq ≠ [])
    (hdf : df = r0 :: rest)
    (hllm : llm query = .error exc) :
    agent_answer llm query df
      = .ok (String.intercalate "\n" (fallbackLines pMeta.2 (pyStrOpt r0.unit)
          (agentRecs df (agentYearsValid df yearsReq))
          (agentNarrs key df (agentYearsValid df yearsReq) (pyStrOpt r0.unit))
          (forecastOpt (agentYearly df)) exc))
    ∧ ("\n[LLM Error: " ++ exc ++ "]")
        ∈ fallbackLines pMeta.2 (pyStrOpt r0.unit)
            (agentRecs df (agentYearsValid df yearsReq))
            (agentNarrs key df (agentYearsValid df yearsReq) (pyStrOpt r0.unit))
            (forecastOpt (agentYearly df)) exc
    ∧ (∀ y ∈ agentYearsValid df yearsReq,
        build_indicator_narrative key df y (pyStrOpt r0.unit)
          ∈ fallbackLines pMeta.2 (pyStrOpt r0.unit)
              (agentRecs df (agentYearsValid df yearsReq))
              (agentNarrs key df (agentYearsValid df yearsReq) (pyStrOpt r0.unit))
              (forecastOpt (agentYearly df)) exc) := by
  obtain ⟨yv0, yvrest, hv⟩ : ∃ a l, agentYearsValid df yearsReq = a :: l := by
    cases hvl : agentYearsValid df yearsReq with
    | nil => exact absurd hvl hvalid
    | cons a l => exact ⟨a, l, rfl⟩
  refine ⟨?_, ?_, ?_⟩
  · subst hdf
    unfold agent_answer
    rw [hdet]
    simp only
    rw [hmeta]
    simp only
    rw [hyears]
    simp only
    rw [hv]
    simp only
    rw [hllm]
  · unfold fallbackLines
    apply List.mem_append_right
    exact List.mem_singleton_self _
  · intro y hy
    unfold fallbackLines
    apply List.mem_append_left
    apply List.mem_append_left
    apply List.mem_append_right
    rw [List.mem_flatMap]
    refine ⟨((agentYearly df).find? (fun row => row.year == y)).getD
      ⟨y, 0, none, none⟩, List.mem_map_of_mem _ hy, ?_⟩
    rw [find?_year_getD df y, narrLookup_agentNarrs hy]
    exact List.mem_cons_of_mem _ (List.mem_cons_self _ _)

/-- Witness for C7: a one-row water table and an LLM stub that raises. -/
theorem C7_llm_error_returns_fallback_wit :
    detect_indicator "water 2023" = some "water"
    ∧ INDICATORS.find? (fun p => p.1 == "water")
        = some ("water", ⟨"water", "Water_Usage", "GRI 303", "Water Usage"⟩)
    ∧ detect_years "water 2023" [⟨2023, 1, "Water", some "m3", 4⟩] = .ok [2023]
    ∧ agentYearsValid [⟨2023, 1, "Water", some "m3", 4⟩] [2023] ≠ []
    ∧ ([(⟨2023, 1, "Water", some "m3", 4⟩ : Row)]
        = (⟨2023, 1, "Water", some "m3", 4⟩ : Row) :: [])
    ∧ (fun _ : String => (.error "down" : Except String String)) "water 2023"
        = .error "down"
    ∧ agent_answer (fun _ => .error "down") "water 2023"
        [⟨2023, 1, "Water", some "m3", 4⟩]
      = .ok (String.intercalate "\n"
          (fallbackLines ⟨"water", "Water_Usage", "GRI 303", "Water Usage"⟩
            (pyStrOpt (⟨2023, 1, "Water", some "m3", (4 : ℚ)⟩ : Row).unit)
            (agentRecs [⟨2023, 1, "Water", some "m3", 4⟩]
              (agentYearsValid [⟨2023, 1, "Water", some "m3", 4⟩] [2023]))
            (agentNarrs "water" [⟨2023, 1, "Water", some "m3", 4⟩]
              (agentYearsValid [⟨2023, 1, "Water", some "m3", 4⟩] [2023])
              (pyStrOpt (⟨2023, 1, "Water", some "m3", (4 : ℚ)⟩ : Row).unit))
            (forecastOpt (agentYearly [⟨2023, 1, "Water", some "m3", 4⟩])) "down")) := by
  have hdet : detect_indicator "water 2023" = some "water" := rfl
  have hmeta : INDICATORS.find? (fun p => p.1 == "water")
      = some ("water", ⟨"water", "Water_Usage", "GRI 303", "Water Usage"⟩) := rfl
  have hyears : detect_years "water 2023" [⟨2023, 1, "Water", some "m3", 4⟩]
      = .ok [2023] := rfl
  have hvalid : agentYearsValid [(⟨2023, 1, "Water", some "m3", 4⟩ : Row)] [2023]
      ≠ [] := by decide
  have hdf : [(⟨2023, 1, "Water", some "m3", 4⟩ : Row)]
      = (⟨2023, 1, "Water", some "m3", 4⟩ : Row) :: [] := rfl
  have hllm : (fun _ : String => (.error "down" : Except String String)) "water 2023"
      = .error "down" := rfl
  exact ⟨hdet, hmeta, hyears, hvalid, hdf, hllm,
    (C7_llm_error_returns_fallback _ _ _ _ _ _ _ _ _
      hdet hmeta hyears hvalid hdf hllm).1⟩

end GriAgent
